import Mathlib

/-!
Shallow embedding of the reconciliation core of provider-http, centred on
the namespaced-request controller (`internal/controller/namespacedrequest/
namespacedrequest.go`) and the status setters of the `v1alpha2` API types.

Packages of the repository that are not present under `src/`
(`requestmapping`, `requestgen`, `observe`, `statushandler`, `utils`,
`data-patcher`) are modelled from the specification; each such definition
carries a doc comment starting with `Modelled from the spec:`.
Collaborator behaviour (template rendering, the HTTP transport, the two
response checkers) is supplied as oracle inputs, so theorems quantify over
every possible collaborator outcome.
-/

namespace ProviderHttp

/-- Headers in the Go code are `map[string][]string`; we embed them as an
association list of header name to value list. -/
def Headers : Type := List (String × List String)

instance : DecidableEq Headers := by
  unfold Headers
  infer_instance

instance : Repr Headers := by
  unfold Headers
  infer_instance

/-- Response mirrors the Go struct `v1alpha2.Response` of the
NamespacedRequest API: status code, body, headers. -/
structure Response where
  statusCode : Int
  body : String
  headers : Headers
deriving DecidableEq, Repr

/-- Cache mirrors the Go struct `v1alpha2.Cache`: the last response and a
last-updated timestamp string. -/
structure Cache where
  lastUpdated : String
  response : Response
deriving DecidableEq, Repr

/-- Mapping mirrors the Go struct `v1alpha2.Mapping`: the per-action method,
action key, body, URL and header templates (the same shape is used for the
`RequestDetails` echo stored in Status). -/
structure Mapping where
  method : String
  action : String
  body : String
  url : String
  headers : Headers
deriving DecidableEq, Repr

/-- ResourceStatus stands for the embedded `xpv1.ResourceStatus`
(Crossplane conditions). The bridge copies it wholesale and no claim looks
inside it, so its carrier is kept abstract as a list of condition strings. -/
structure ResourceStatus where
  conditions : List String
deriving DecidableEq, Repr

/-- NamespacedRequestStatus mirrors the status block of the Go
`v1alpha2.NamespacedRequest` as used by the setters in the API package and
by the bridge: Response, Cache, Failed, Error, RequestDetails,
ResourceStatus. `Failed` is embedded as an unbounded integer, matching the
description in the spec of the persisted field `failed` (integer). -/
structure NamespacedRequestStatus where
  resourceStatus : ResourceStatus
  response : Response
  cache : Cache
  failed : Int
  error : String
  requestDetails : Mapping
deriving DecidableEq, Repr

/-- ExpectedResponseCheck mirrors the Go struct with a kind (`Type` in Go)
and a jq logic expression. -/
structure ExpectedResponseCheck where
  type : String
  logic : String
deriving DecidableEq, Repr

/-- Payload mirrors the Go struct `v1alpha2.Payload`. -/
structure Payload where
  baseUrl : String
  body : String
deriving DecidableEq, Repr

/-- SecretInjectionConfig is kept abstract: the bridge copies the list
unchanged and the data-patcher consumes it only inside the (best-effort)
secret patching collaborator. -/
structure SecretInjectionConfig where
  raw : String
deriving DecidableEq, Repr

/-- NamespacedRequestParameters mirrors the `ForProvider` spec block fields
that the bridge converts: mappings, payload, headers, wait timeout,
TLS flag, secret injection configs and the two response checks. -/
structure NamespacedRequestParameters where
  mappings : List Mapping
  payload : Payload
  headers : Headers
  waitTimeout : Option String
  insecureSkipTLSVerify : Bool
  secretInjectionConfigs : List SecretInjectionConfig
  expectedResponseCheck : ExpectedResponseCheck
  isRemovedCheck : ExpectedResponseCheck
deriving DecidableEq, Repr

/-- NamespacedRequest mirrors the Go managed resource: metadata (kept as
opaque strings), the ForProvider parameters, and the status block. -/
structure NamespacedRequest where
  typeMeta : String
  objectMeta : String
  managedResourceSpec : String
  forProvider : NamespacedRequestParameters
  status : NamespacedRequestStatus
deriving DecidableEq, Repr

/-- SetStatusCode mirrors `(d *NamespacedRequest) SetStatusCode`. -/
def NamespacedRequest.SetStatusCode (d : NamespacedRequest) (statusCode : Int) : NamespacedRequest :=
  { d with status := { d.status with response := { d.status.response with statusCode := statusCode } } }

/-- SetHeaders mirrors `(d *NamespacedRequest) SetHeaders`. -/
def NamespacedRequest.SetHeaders (d : NamespacedRequest) (headers : Headers) : NamespacedRequest :=
  { d with status := { d.status with response := { d.status.response with headers := headers } } }

/-- SetBody mirrors `(d *NamespacedRequest) SetBody`. -/
def NamespacedRequest.SetBody (d : NamespacedRequest) (body : String) : NamespacedRequest :=
  { d with status := { d.status with response := { d.status.response with body := body } } }

/-- SetError mirrors `(d *NamespacedRequest) SetError`: it increments
`Status.Failed`, and only when the error is non-nil it overwrites
`Status.Error` with the message of the error. A Go `error` value is embedded as
`Option String` (`none` is the nil error). -/
def NamespacedRequest.SetError (d : NamespacedRequest) (err : Option String) : NamespacedRequest :=
  let d1 := { d with status := { d.status with failed := d.status.failed + 1 } }
  match err with
  | some msg => { d1 with status := { d1.status with error := msg } }
  | none => d1

/-- ResetFailures mirrors `(d *NamespacedRequest) ResetFailures`: it sets
`Status.Failed` to 0 and `Status.Error` to the empty string. -/
def NamespacedRequest.ResetFailures (d : NamespacedRequest) : NamespacedRequest :=
  { d with status := { d.status with failed := 0, error := "" } }

/-- SetRequestDetails mirrors `(d *NamespacedRequest) SetRequestDetails`:
it overwrites body, URL, headers and method of `Status.RequestDetails`
(the `Action` field is untouched). -/
def NamespacedRequest.SetRequestDetails (d : NamespacedRequest) (url method body : String) (headers : Headers) : NamespacedRequest :=
  { d with status := { d.status with requestDetails :=
      { d.status.requestDetails with body := body, url := url, headers := headers, method := method } } }

/-- SetCache mirrors `(d *NamespacedRequest) SetCache`: it overwrites the
cached response and stamps `LastUpdated` with the current time (supplied
here as an explicit argument, standing for `time.Now().UTC()` formatted as
RFC3339). -/
def NamespacedRequest.SetCache (d : NamespacedRequest) (statusCode : Int) (headers : Headers) (body : String) (now : String) : NamespacedRequest :=
  { d with status := { d.status with cache :=
      { lastUpdated := now,
        response := { statusCode := statusCode, headers := headers, body := body } } } }

/-- RResponse mirrors the Go struct `requestv1alpha2.Response` of the
canonical Request API (structurally identical to the namespaced one, but a
distinct Go type the bridge converts into). -/
structure RResponse where
  statusCode : Int
  body : String
  headers : Headers
deriving DecidableEq, Repr

/-- RCache mirrors `requestv1alpha2.Cache`. -/
structure RCache where
  lastUpdated : String
  response : RResponse
deriving DecidableEq, Repr

/-- RMapping mirrors `requestv1alpha2.Mapping`. -/
structure RMapping where
  method : String
  action : String
  body : String
  url : String
  headers : Headers
deriving DecidableEq, Repr

/-- RExpectedResponseCheck mirrors `requestv1alpha2.ExpectedResponseCheck`. -/
structure RExpectedResponseCheck where
  type : String
  logic : String
deriving DecidableEq, Repr

/-- RPayload mirrors `requestv1alpha2.Payload`. -/
structure RPayload where
  baseUrl : String
  body : String
deriving DecidableEq, Repr

/-- RequestParameters mirrors `requestv1alpha2.RequestParameters` (the
fields the bridge fills). -/
structure RequestParameters where
  mappings : List RMapping
  payload : RPayload
  headers : Headers
  waitTimeout : Option String
  insecureSkipTLSVerify : Bool
  secretInjectionConfigs : List SecretInjectionConfig
  expectedResponseCheck : RExpectedResponseCheck
  isRemovedCheck : RExpectedResponseCheck
deriving DecidableEq, Repr

/-- RequestStatus mirrors `requestv1alpha2.RequestStatus`. -/
structure RequestStatus where
  resourceStatus : ResourceStatus
  response : RResponse
  cache : RCache
  failed : Int
  error : String
  requestDetails : RMapping
deriving DecidableEq, Repr

/-- Request mirrors the Go `requestv1alpha2.Request` managed resource the
engine submodules operate on. -/
structure Request where
  typeMeta : String
  objectMeta : String
  managedResourceSpec : String
  forProvider : RequestParameters
  status : RequestStatus
deriving DecidableEq, Repr

/-- convertMappings mirrors the Go helper `convertMappings`. -/
def convertMappings (mappings : List Mapping) : List RMapping :=
  mappings.map (fun m =>
    { method := m.method, action := m.action, body := m.body, url := m.url, headers := m.headers })

/-- convertPayload mirrors the Go helper `convertPayload`. -/
def convertPayload (payload : Payload) : RPayload :=
  { baseUrl := payload.baseUrl, body := payload.body }

/-- convertExpectedResponseCheck mirrors the Go helper
`convertExpectedResponseCheck`. -/
def convertExpectedResponseCheck (check : ExpectedResponseCheck) : RExpectedResponseCheck :=
  { type := check.type, logic := check.logic }

/-- convertResponse mirrors the Go helper `convertResponse`. -/
def convertResponse (response : Response) : RResponse :=
  { statusCode := response.statusCode, body := response.body, headers := response.headers }

/-- convertCache mirrors the Go helper `convertCache`. -/
def convertCache (cache : Cache) : RCache :=
  { lastUpdated := cache.lastUpdated,
    response := { statusCode := cache.response.statusCode, body := cache.response.body, headers := cache.response.headers } }

/-- convertMapping mirrors the Go helper `convertMapping`. -/
def convertMapping (mapping : Mapping) : RMapping :=
  { method := mapping.method, action := mapping.action, body := mapping.body, url := mapping.url, headers := mapping.headers }

/-- bridgeToRequest mirrors `(c *external) bridgeToRequest`: it converts a
NamespacedRequest to the canonical Request so the engine submodules can be
reused. -/
def bridgeToRequest (nsr : NamespacedRequest) : Request :=
  { typeMeta := nsr.typeMeta
    objectMeta := nsr.objectMeta
    managedResourceSpec := nsr.managedResourceSpec
    forProvider :=
      { mappings := convertMappings nsr.forProvider.mappings
        payload := convertPayload nsr.forProvider.payload
        headers := nsr.forProvider.headers
        waitTimeout := nsr.forProvider.waitTimeout
        insecureSkipTLSVerify := nsr.forProvider.insecureSkipTLSVerify
        secretInjectionConfigs := nsr.forProvider.secretInjectionConfigs
        expectedResponseCheck := convertExpectedResponseCheck nsr.forProvider.expectedResponseCheck
        isRemovedCheck := convertExpectedResponseCheck nsr.forProvider.isRemovedCheck }
    status :=
      { resourceStatus := nsr.status.resourceStatus
        response := convertResponse nsr.status.response
        cache := convertCache nsr.status.cache
        failed := nsr.status.failed
        error := nsr.status.error
        requestDetails := convertMapping nsr.status.requestDetails } }

/-- bridgeFromRequest mirrors `(c *external) bridgeFromRequest`: it writes
the status fields of the Request back into the NamespacedRequest after
processing (a pure update here: the Go method mutates `nsr` in place). -/
def bridgeFromRequest (nsr : NamespacedRequest) (r : Request) : NamespacedRequest :=
  { nsr with status :=
      { resourceStatus := r.status.resourceStatus
        response :=
          { statusCode := r.status.response.statusCode
            body := r.status.response.body
            headers := r.status.response.headers }
        cache :=
          { lastUpdated := r.status.cache.lastUpdated
            response :=
              { statusCode := r.status.cache.response.statusCode
                body := r.status.cache.response.body
                headers := r.status.cache.response.headers } }
        failed := r.status.failed
        error := r.status.error
        requestDetails :=
          { method := r.status.requestDetails.method
            action := r.status.requestDetails.action
            body := r.status.requestDetails.body
            url := r.status.requestDetails.url
            headers := r.status.requestDetails.headers } } }

/-- ActionCreate names the create action key (`v1alpha2.ActionCreate`). -/
def ActionCreate : String := "CREATE"

/-- ActionObserve names the observe action key (`v1alpha2.ActionObserve`). -/
def ActionObserve : String := "OBSERVE"

/-- ActionUpdate names the update action key (`v1alpha2.ActionUpdate`). -/
def ActionUpdate : String := "UPDATE"

/-- ActionRemove names the delete action key (`v1alpha2.ActionRemove`). -/
def ActionRemove : String := "REMOVE"

/-- errFailedToSendHttpRequest is the wrap message used by Create, Update
and Delete (Go constant `errFailedToSendHttpRequest`). -/
def errFailedToSendHttpRequest : String := "something went wrong"

/-- errFailedToCheckIfUpToDate is the wrap message used by Observe on a
fatal isUpToDate error (Go constant `errFailedToCheckIfUpToDate`). -/
def errFailedToCheckIfUpToDate : String := "failed to check if request is up to date"

/-- errGetLatestVersion is the wrap message used by Observe when
re-fetching the resource fails (Go constant `errGetLatestVersion`). -/
def errGetLatestVersion : String := "failed to get the latest version of the resource"

/-- errFailedUpdateStatusConditions is the wrap message for a failed status
update (Go constant `errFailedUpdateStatusConditions`). -/
def errFailedUpdateStatusConditions : String := "failed updating status conditions"

/-- errExpectedResponseCheckType renders the Go format string
`"%s.Type should be either DEFAULT, CUSTOM or empty"` applied to a field
name, as produced by `errors.Errorf` in `determineIfUpToDate` and
`determineIfRemoved`. -/
def errExpectedResponseCheckType (field : String) : String :=
  field ++ ".Type should be either DEFAULT, CUSTOM or empty"

/-- Modelled from the spec: the `observe` package is not under `src/`.
ErrObjectNotFound is the sentinel error message the observe flow compares
against by string equality (`err.Error() == observe.ErrObjectNotFound`). -/
def ErrObjectNotFound : String := "object not found"

/-- wrapErr embeds `errors.Wrap(err, msg)` from github.com/pkg/errors for a
non-nil error: the wrapped message is `msg ++ ": " ++ err`. -/
def wrapErr (msg err : String) : String := msg ++ ": " ++ err

/-- wrapOptionErr embeds `errors.Wrap` on a possibly-nil error: wrapping a
nil error yields nil. -/
def wrapOptionErr (msg : String) : Option String → Option String
  | none => none
  | some e => some (wrapErr msg e)

/-- Modelled from the spec: the `utils` package is not under `src/`.
IsHTTPSuccess holds when the status code is in the success range 200-299
(spec 4.4b: "DEFAULT up-to-date check: response status is in the success
range (200-299)"). -/
def IsHTTPSuccess (statusCode : Int) : Bool :=
  200 ≤ statusCode && statusCode ≤ 299

/-- Modelled from the spec: the `utils` package is not under `src/`.
IsHTTPError holds when the status code is an HTTP error status, i.e. in
the client/server error classes 400-599. -/
def IsHTTPError (statusCode : Int) : Bool :=
  400 ≤ statusCode && statusCode < 600

/-- Modelled from the spec: the `requestmapping` package is not under
`src/`. GetMapping returns the explicit Mapping for the requested action
when one is present, and fails otherwise (spec 4.1: "use the explicit
Mapping for `action` if present", absent means a NoMappingError). -/
def GetMapping (params : RequestParameters) (action : String) : Option RMapping :=
  params.mappings.find? (fun m => m.action == action)

/-- Modelled from the spec: the `observe` package is not under `src/`.
validCheckType mirrors the response-check factory returning a non-nil
checker exactly for the kinds DEFAULT, CUSTOM and empty (spec: "kind ∈
\x7bDEFAULT, CUSTOM, empty\x7d; any other value is a configuration
error"). -/
def validCheckType (t : String) : Bool :=
  t == "DEFAULT" || t == "CUSTOM" || t == ""

/-- RequestDetailsR embeds the rendered request produced by the request
generator (spec 4.2 / data model: "RequestDetails: a fully rendered,
ready-to-send request (method, URL, body, headers)"). -/
structure RequestDetailsR where
  method : String
  url : String
  body : String
  headers : Headers
deriving DecidableEq, Repr

/-- HttpDetails embeds `httpClient.HttpDetails`: the structured response
and an echo of the request that was dispatched. -/
structure HttpDetails where
  httpResponse : RResponse
  httpRequest : RequestDetailsR
deriving DecidableEq, Repr

/-- ObserveRequestDetails mirrors the Go struct of the same name: the HTTP
details, the response error (nil embedded as `none`) and the synced
verdict. -/
structure ObserveRequestDetails where
  details : HttpDetails
  responseError : Option String
  synced : Bool
deriving DecidableEq, Repr

/-- NewObserve mirrors the Go constructor `NewObserve`. -/
def NewObserve (details : HttpDetails) (resErr : Option String) (synced : Bool) : ObserveRequestDetails :=
  { synced := synced, details := details, responseError := resErr }

/-- FailedObserve mirrors the Go constructor `FailedObserve`: a zero-value
result with `Synced = false`. -/
def FailedObserve : ObserveRequestDetails :=
  { synced := false
    responseError := none
    details :=
      { httpResponse := { statusCode := 0, body := "", headers := [] }
        httpRequest := { method := "", url := "", body := "", headers := [] } } }

/-- Event records the externally visible side effects of one reconcile
call, in order: dispatching the HTTP request and running the secret
patcher. -/
inductive Event where
  | sentRequest : Event
  | ranSecretPatcher : Event
deriving DecidableEq, Repr

instance {ε α : Type} [DecidableEq ε] [DecidableEq α] : DecidableEq (Except ε α)
  | Except.error a, Except.error b =>
    decidable_of_iff (a = b) ⟨fun h => by rw [h], fun h => by cases h; rfl⟩
  | Except.error _, Except.ok _ => isFalse (fun h => by cases h)
  | Except.ok _, Except.error _ => isFalse (fun h => by cases h)
  | Except.ok a, Except.ok b =>
    decidable_of_iff (a = b) ⟨fun h => by rw [h], fun h => by cases h; rfl⟩

/-- Collaborators packages the outcome of each collaborator consulted by
one reconcile call, supplied as oracles: the render result of the request
generator, the response details of the transport and error, the removal
checker verdict (an error signals removed or an evaluation failure), the
up-to-date checker verdict, and the clock reading used for the cache
timestamp. -/
structure Collaborators where
  render : Except String RequestDetailsR
  sendDetails : HttpDetails
  sendErr : Option String
  removedCheck : Except String Unit
  upToDateCheck : Except String Bool
  now : String
deriving DecidableEq, Repr

/-- isObjectValidForObservation mirrors
`(c *external) isObjectValidForObservation`: the object is valid for
observation when a response status code has been recorded and the last
recorded request was not a POST that ended in an HTTP error status. -/
def isObjectValidForObservation (cr : Request) : Bool :=
  cr.status.response.statusCode != 0 &&
    !(cr.status.requestDetails.method == "POST" && IsHTTPError cr.status.response.statusCode)

/-- determineIfRemoved mirrors `(c *external) determineIfRemoved`: a nil
checker (invalid kind) is a configuration error, otherwise the checker
verdict is returned (the checker itself is supplied as an oracle). -/
def determineIfRemoved (cr : Request) (col : Collaborators) : Option String :=
  if validCheckType cr.forProvider.isRemovedCheck.type then
    match col.removedCheck with
    | Except.error e => some e
    | Except.ok _ => none
  else some (errExpectedResponseCheckType "isRemovedCheck")

/-- determineIfUpToDate mirrors `(c *external) determineIfUpToDate`: a nil
checker (invalid kind) is a configuration error; a checker error is
propagated with a failed observation; otherwise the verdict is packaged
with the HTTP details. -/
def determineIfUpToDate (cr : Request) (details : HttpDetails) (responseErr : Option String) (col : Collaborators) : ObserveRequestDetails × Option String :=
  if validCheckType cr.forProvider.expectedResponseCheck.type then
    match col.upToDateCheck with
    | Except.error e => (FailedObserve, some e)
    | Except.ok result => (NewObserve details responseErr result, none)
  else (FailedObserve, some (errExpectedResponseCheckType "expectedResponseCheck"))

/-- isUpToDateRun mirrors `(c *external) isUpToDate`, additionally
recording the trace of side effects: resolve the observe mapping, render
the request, send it, short-circuit to ErrObjectNotFound when an object
that was never created cannot be confirmed, evaluate the removal check,
run the secret patcher, and evaluate the up-to-date check. -/
def isUpToDateRun (cr : Request) (col : Collaborators) :
    (ObserveRequestDetails × Option String) × List Event :=
  match GetMapping cr.forProvider ActionObserve with
  | none => ((FailedObserve, some ("no mapping for " ++ ActionObserve)), [])
  | some _mapping =>
    let objectNotCreated := !(isObjectValidForObservation cr)
    match col.render with
    | Except.error msg =>
      ((FailedObserve, some (if objectNotCreated then ErrObjectNotFound else msg)), [])
    | Except.ok _requestDetails =>
      let details := col.sendDetails
      let responseErr := col.sendErr
      let tr := [Event.sentRequest]
      if !(IsHTTPSuccess details.httpResponse.statusCode) && objectNotCreated then
        ((FailedObserve, some ErrObjectNotFound), tr)
      else
        match determineIfRemoved cr col with
        | some e => ((FailedObserve, some e), tr)
        | none =>
          let tr := tr ++ [Event.ranSecretPatcher]
          (determineIfUpToDate cr details responseErr col, tr)

/-- RSetError applies to the canonical Request status the same setter
implemented by `SetError` in the API packages under `src/` (increment
Failed; overwrite Error only for a non-nil error). -/
def RSetError (s : RequestStatus) (err : Option String) : RequestStatus :=
  let s1 := { s with failed := s.failed + 1 }
  match err with
  | some msg => { s1 with error := msg }
  | none => s1

/-- RResetFailures applies to the canonical Request status the same setter
implemented by `ResetFailures` in the API packages under `src/`: Failed is
set to 0 and Error to the empty string. -/
def RResetFailures (s : RequestStatus) : RequestStatus :=
  { s with failed := 0, error := "" }

/-- Modelled from the spec: the `statushandler` package is not under
`src/`. SetRequestStatus performs the single status write of spec 4.6:
set RequestDetails to the rendered request; if an error occurred,
increment Failed and set Error to its message; if synced is true, reset
Failed to 0 and clear Error (reset takes precedence); always refresh the
Response and the Cache (response plus timestamp) when a response was
actually received, even a non-2xx one. -/
def setRequestStatus (s : RequestStatus) (details : HttpDetails) (respErr : Option String) (synced : Bool) (now : String) : RequestStatus :=
  let s1 := { s with requestDetails :=
      { method := details.httpRequest.method
        action := s.requestDetails.action
        body := details.httpRequest.body
        url := details.httpRequest.url
        headers := details.httpRequest.headers } }
  let s2 := match respErr with
    | some m => RSetError s1 (some m)
    | none => s1
  let s3 := if synced then RResetFailures s2 else s2
  if details.httpResponse.statusCode != 0 then
    { s3 with response := details.httpResponse
              cache := { lastUpdated := now, response := details.httpResponse } }
  else s3

/-- ExternalObservation mirrors the fields of
`managed.ExternalObservation` the controller sets. -/
structure ExternalObservation where
  resourceExists : Bool
  resourceUpToDate : Bool
deriving DecidableEq, Repr

/-- ObserveRun mirrors `(c *external) Observe`, with the Kubernetes client
supplied as oracles: `latest` is the resource returned by the re-fetch
(`localKube.Get`) before the status write, `getOk` and `updateOk` give the
outcome of that fetch and of the final status update. The result is the
observation plus error, the resource after the call (carrying the written
status), and the trace of side effects. -/
def ObserveRun (cr : NamespacedRequest) (col : Collaborators)
    (latest : NamespacedRequest) (getOk updateOk : Bool) :
    (ExternalObservation × Option String) × NamespacedRequest × List Event :=
  let bridged := bridgeToRequest cr
  let res := isUpToDateRun bridged col
  let ord := res.1.1
  let tr := res.2
  match res.1.2 with
  | some e =>
    if e == ErrObjectNotFound then
      (({ resourceExists := false, resourceUpToDate := false }, none), cr, tr)
    else
      (({ resourceExists := false, resourceUpToDate := false },
        some (wrapErr errFailedToCheckIfUpToDate e)), cr, tr)
  | none =>
    if getOk then
      let bridged2 := bridgeToRequest latest
      let synced := ord.synced
      let st0 := if synced then RResetFailures bridged2.status else bridged2.status
      let st1 := setRequestStatus st0 ord.details ord.responseError synced col.now
      let cr2 := bridgeFromRequest latest { bridged2 with status := st1 }
      if updateOk then
        (({ resourceExists := true, resourceUpToDate := synced }, none), cr2, tr)
      else
        (({ resourceExists := false, resourceUpToDate := false },
          some errFailedUpdateStatusConditions), cr2, tr)
    else
      (({ resourceExists := false, resourceUpToDate := false },
        some errGetLatestVersion), cr, tr)

/-- deployActionRun mirrors `(c *external) deployAction`, with
collaborators as oracles: resolve the mapping (absent means log and return
nil), render the request (a render error returns immediately), send it,
run the secret patcher, write the status through the status handler, and
persist (`updateOk` gives the outcome of the final status update). The
result is the returned error, the resource after the call and the side
effect trace. -/
def deployActionRun (cr : NamespacedRequest) (action : String) (col : Collaborators) (updateOk : Bool) :
    Option String × NamespacedRequest × List Event :=
  let bridged := bridgeToRequest cr
  match GetMapping bridged.forProvider action with
  | none => (none, cr, [])
  | some _mapping =>
    match col.render with
    | Except.error msg => (some msg, cr, [])
    | Except.ok _requestDetails =>
      let details := col.sendDetails
      let sendErr := col.sendErr
      let tr := [Event.sentRequest, Event.ranSecretPatcher]
      let st := setRequestStatus bridged.status details sendErr false col.now
      let cr2 := bridgeFromRequest cr { bridged with status := st }
      if updateOk then (none, cr2, tr)
      else (some errFailedUpdateStatusConditions, cr2, tr)

/-- CreateRun mirrors `(c *external) Create`: deployAction for the create
action, wrapped with the generic failure marker. -/
def CreateRun (cr : NamespacedRequest) (col : Collaborators) (updateOk : Bool) :
    Option String × NamespacedRequest × List Event :=
  let r := deployActionRun cr ActionCreate col updateOk
  (wrapOptionErr errFailedToSendHttpRequest r.1, r.2.1, r.2.2)

/-- UpdateRun mirrors `(c *external) Update`. -/
def UpdateRun (cr : NamespacedRequest) (col : Collaborators) (updateOk : Bool) :
    Option String × NamespacedRequest × List Event :=
  let r := deployActionRun cr ActionUpdate col updateOk
  (wrapOptionErr errFailedToSendHttpRequest r.1, r.2.1, r.2.2)

/-- DeleteRun mirrors `(c *external) Delete`. -/
def DeleteRun (cr : NamespacedRequest) (col : Collaborators) (updateOk : Bool) :
    Option String × NamespacedRequest × List Event :=
  let r := deployActionRun cr ActionRemove col updateOk
  (wrapOptionErr errFailedToSendHttpRequest r.1, r.2.1, r.2.2)

/-- sampleObserveMapping is a concrete observe Mapping used by the
concrete evaluations below. -/
def sampleObserveMapping : Mapping :=
  { method := "GET", action := "OBSERVE", body := "", url := "https://api.example.com/items/42", headers := [] }

/-- sampleCreateMapping is a concrete create Mapping. -/
def sampleCreateMapping : Mapping :=
  { method := "POST", action := "CREATE", body := "name=foo", url := "https://api.example.com/items", headers := [] }

/-- emptyStatus is a zero-value status block: nothing recorded yet. -/
def emptyStatus : NamespacedRequestStatus :=
  { resourceStatus := { conditions := [] }
    response := { statusCode := 0, body := "", headers := [] }
    cache := { lastUpdated := "", response := { statusCode := 0, body := "", headers := [] } }
    failed := 0
    error := ""
    requestDetails := { method := "", action := "", body := "", url := "", headers := [] } }

/-- createdStatus is a status block recording a previous successful GET
probe, so the object counts as already created. -/
def createdStatus : NamespacedRequestStatus :=
  { resourceStatus := { conditions := [] }
    response := { statusCode := 200, body := "id=42", headers := [] }
    cache := { lastUpdated := "2026-10-10T00:00:00Z", response := { statusCode := 200, body := "id=42", headers := [] } }
    failed := 0
    error := ""
    requestDetails := { method := "GET", action := "OBSERVE", body := "", url := "https://api.example.com/items/42", headers := [] } }

/-- mkSampleCR builds a concrete NamespacedRequest with the two sample
mappings, the given response-check kinds, and the given status. -/
def mkSampleCR (upKind removedKind : String) (st : NamespacedRequestStatus) : NamespacedRequest :=
  { typeMeta := "NamespacedRequest"
    objectMeta := "default/sample"
    managedResourceSpec := ""
    forProvider :=
      { mappings := [sampleObserveMapping, sampleCreateMapping]
        payload := { baseUrl := "", body := "" }
        headers := []
        waitTimeout := none
        insecureSkipTLSVerify := false
        secretInjectionConfigs := []
        expectedResponseCheck := { type := upKind, logic := "" }
        isRemovedCheck := { type := removedKind, logic := "" } }
    status := st }

/-- sampleDetails200 is a concrete successful HTTP exchange. -/
def sampleDetails200 : HttpDetails :=
  { httpResponse := { statusCode := 200, body := "id=42", headers := [] }
    httpRequest := { method := "GET", url := "https://api.example.com/items/42", body := "", headers := [] } }

/-- sampleDetails404 is a concrete not-found HTTP exchange. -/
def sampleDetails404 : HttpDetails :=
  { httpResponse := { statusCode := 404, body := "", headers := [] }
    httpRequest := { method := "GET", url := "https://api.example.com/items/42", body := "", headers := [] } }

/-- happyCollaborators is a fully successful collaborator outcome: the
render succeeds, the probe returns 200, the removal check passes and the
up-to-date check returns true. -/
def happyCollaborators : Collaborators :=
  { render := Except.ok { method := "GET", url := "https://api.example.com/items/42", body := "", headers := [] }
    sendDetails := sampleDetails200
    sendErr := none
    removedCheck := Except.ok ()
    upToDateCheck := Except.ok true
    now := "2026-10-11T12:00:00Z" }

/-- removedCollaborators is like happyCollaborators except that the
removal checker signals that the resource was removed. -/
def removedCollaborators : Collaborators :=
  { happyCollaborators with removedCheck := Except.error "resource was removed" }

/-- renderFailCollaborators is like happyCollaborators except that the
request renderer fails on an unresolved secret reference. -/
def renderFailCollaborators : Collaborators :=
  { happyCollaborators with render := Except.error "unresolved secret reference" }

/-- int32wrap reduces an integer to the two-complement int32 range,
mirroring the defined wrap-around of Go arithmetic on an `int32` value
(2147483647 + 1 wraps to -2147483648). -/
def int32wrap (n : Int) : Int :=
  (n + 2147483648) % 4294967296 - 2147483648

/-- DResponse mirrors the Go struct `Response` of the
NamespacedDisposableRequest API package (a distinct Go type with the same
shape as the namespaced-request one). -/
structure DResponse where
  statusCode : Int
  body : String
  headers : Headers
deriving DecidableEq, Repr

/-- DMapping mirrors the Go struct `Mapping` of the
NamespacedDisposableRequest API package: method, body, URL, headers (this
type has no Action field). -/
structure DMapping where
  method : String
  body : String
  url : String
  headers : Headers
deriving DecidableEq, Repr

/-- NamespacedDisposableRequestParameters mirrors the configurable fields
of a NamespacedDisposableRequest
(`namespaceddisposablerequest_types.go`). -/
structure NamespacedDisposableRequestParameters where
  url : String
  method : String
  headers : Headers
  body : String
  waitTimeout : Option String
  rollbackRetriesLimit : Option Int
  insecureSkipTLSVerify : Bool
  expectedResponse : String
  nextReconcile : Option String
  shouldLoopInfinitely : Bool
  secretInjectionConfigs : List SecretInjectionConfig
deriving DecidableEq, Repr

/-- NamespacedDisposableRequestStatus mirrors the observed state of a
NamespacedDisposableRequest (`namespaceddisposablerequest_types.go:85-95`).
The Go field `Failed` is an `int32`; it is embedded as an `Int` whose
arithmetic is wrapped through `int32wrap` at every mutation, so overflow
behaves exactly as in Go. -/
structure NamespacedDisposableRequestStatus where
  resourceStatus : ResourceStatus
  response : DResponse
  failed : Int
  error : String
  synced : Bool
  requestDetails : DMapping
  lastReconcileTime : String
deriving DecidableEq, Repr

/-- NamespacedDisposableRequest mirrors the Go managed resource of the
disposable-request API. -/
structure NamespacedDisposableRequest where
  typeMeta : String
  objectMeta : String
  spec : NamespacedDisposableRequestParameters
  status : NamespacedDisposableRequestStatus
deriving DecidableEq, Repr

/-- SetStatusCode mirrors `(d *NamespacedDisposableRequest) SetStatusCode`. -/
def NamespacedDisposableRequest.SetStatusCode (d : NamespacedDisposableRequest) (statusCode : Int) : NamespacedDisposableRequest :=
  { d with status := { d.status with response := { d.status.response with statusCode := statusCode } } }

/-- SetHeaders mirrors `(d *NamespacedDisposableRequest) SetHeaders`. -/
def NamespacedDisposableRequest.SetHeaders (d : NamespacedDisposableRequest) (headers : Headers) : NamespacedDisposableRequest :=
  { d with status := { d.status with response := { d.status.response with headers := headers } } }

/-- SetBody mirrors `(d *NamespacedDisposableRequest) SetBody`. -/
def NamespacedDisposableRequest.SetBody (d : NamespacedDisposableRequest) (body : String) : NamespacedDisposableRequest :=
  { d with status := { d.status with response := { d.status.response with body := body } } }

/-- SetError mirrors `(d *NamespacedDisposableRequest) SetError`: the Go
statement `d.Status.Failed++` increments the `int32` counter with
wrap-around, and only when the error is non-nil it overwrites
`Status.Error` with the message of the error. -/
def NamespacedDisposableRequest.SetError (d : NamespacedDisposableRequest) (err : Option String) : NamespacedDisposableRequest :=
  let d1 := { d with status := { d.status with failed := int32wrap (d.status.failed + 1) } }
  match err with
  | some msg => { d1 with status := { d1.status with error := msg } }
  | none => d1

/-- ResetFailures mirrors `(d *NamespacedDisposableRequest)
ResetFailures`. -/
def NamespacedDisposableRequest.ResetFailures (d : NamespacedDisposableRequest) : NamespacedDisposableRequest :=
  { d with status := { d.status with failed := 0, error := "" } }

/-- SetSynced mirrors `(d *NamespacedDisposableRequest) SetSynced`. -/
def NamespacedDisposableRequest.SetSynced (d : NamespacedDisposableRequest) (status : Bool) : NamespacedDisposableRequest :=
  { d with status := { d.status with synced := status } }

/-- SetRequestDetails mirrors `(d *NamespacedDisposableRequest)
SetRequestDetails`. -/
def NamespacedDisposableRequest.SetRequestDetails (d : NamespacedDisposableRequest) (url method body : String) (headers : Headers) : NamespacedDisposableRequest :=
  { d with status := { d.status with requestDetails :=
      { body := body, url := url, headers := headers, method := method } } }

/-- SetLastReconcileTime mirrors `(d *NamespacedDisposableRequest)
SetLastReconcileTime`. -/
def NamespacedDisposableRequest.SetLastReconcileTime (d : NamespacedDisposableRequest) (t : String) : NamespacedDisposableRequest :=
  { d with status := { d.status with lastReconcileTime := t } }

/-- mkDisposable builds a concrete NamespacedDisposableRequest with the
given Failed counter and Error message. -/
def mkDisposable (failed : Int) (error : String) : NamespacedDisposableRequest :=
  { typeMeta := "NamespacedDisposableRequest"
    objectMeta := "default/sample-disposable"
    spec :=
      { url := "https://example-url"
        method := "GET"
        headers := []
        body := ""
        waitTimeout := none
        rollbackRetriesLimit := none
        insecureSkipTLSVerify := false
        expectedResponse := ""
        nextReconcile := none
        shouldLoopInfinitely := false
        secretInjectionConfigs := [] }
    status :=
      { resourceStatus := { conditions := [] }
        response := { statusCode := 0, body := "", headers := [] }
        failed := failed
        error := error
        synced := false
        requestDetails := { method := "", body := "", url := "", headers := [] }
        lastReconcileTime := "" } }

/-- notFoundCollaborators is like happyCollaborators except that the probe
comes back with a 404 response. -/
def notFoundCollaborators : Collaborators :=
  { happyCollaborators with sendDetails := sampleDetails404 }

/-- observeRMapping is the canonical-form observe mapping found by
GetMapping in the sample resource. -/
def observeRMapping : RMapping :=
  { method := "GET", action := "OBSERVE", body := "", url := "https://api.example.com/items/42", headers := [] }

/-- createRMapping is the canonical-form create mapping found by
GetMapping in the sample resource. -/
def createRMapping : RMapping :=
  { method := "POST", action := "CREATE", body := "name=foo", url := "https://api.example.com/items", headers := [] }

/-- sampleRenderDetails is the rendered request the happy collaborators
produce. -/
def sampleRenderDetails : RequestDetailsR :=
  { method := "GET", url := "https://api.example.com/items/42", body := "", headers := [] }

theorem setRequestStatus_synced (s : RequestStatus) (details : HttpDetails)
    (respErr : Option String) (now : String) :
    (setRequestStatus s details respErr true now).failed = 0 ∧
    (setRequestStatus s details respErr true now).error = "" := by
  unfold setRequestStatus RSetError RResetFailures
  cases respErr <;> dsimp only [] <;> split <;> simp

/-- C9: for every NamespacedRequest, converting to the canonical Request
with bridgeToRequest and back with bridgeFromRequest leaves the status
fields Response, Cache, Failed, Error, RequestDetails and ResourceStatus
unchanged: the round trip through the adapter is the identity on those
fields. -/
theorem C9_bridge_round_trip_identity (nsr : NamespacedRequest) :
    (bridgeFromRequest nsr (bridgeToRequest nsr)).status.response = nsr.status.response ∧
    (bridgeFromRequest nsr (bridgeToRequest nsr)).status.cache = nsr.status.cache ∧
    (bridgeFromRequest nsr (bridgeToRequest nsr)).status.failed = nsr.status.failed ∧
    (bridgeFromRequest nsr (bridgeToRequest nsr)).status.error = nsr.status.error ∧
    (bridgeFromRequest nsr (bridgeToRequest nsr)).status.requestDetails = nsr.status.requestDetails ∧
    (bridgeFromRequest nsr (bridgeToRequest nsr)).status.resourceStatus = nsr.status.resourceStatus := by
  refine ⟨rfl, rfl, rfl, rfl, rfl, rfl⟩

/-- C10 counterexample: on a concrete status record with the int32 Failed
counter at its maximum 2147483647, SetError (the Go `Failed++` on an
`int32` field) wraps the counter to -2147483648 rather than incrementing
it by exactly 1, refuting the claim as stated over every status record. -/
theorem C10_counterexample :
    ((mkDisposable 2147483647 "old").SetError none).status.failed = -2147483648 ∧
    ¬(((mkDisposable 2147483647 "old").SetError none).status.failed =
        (mkDisposable 2147483647 "old").status.failed + 1) := by
  decide

/-- C10 amended: for every status record, SetError increments Failed
through the int32 wrap-around (so by exactly 1 whenever Failed lies in
the int32 range below its maximum 2147483647, and wrapping at the
maximum), even when the supplied error is nil, and in the nil case it
leaves the Error message unchanged rather than clearing or overwriting
it. -/
theorem C10_setError_wrapped_increment_and_nil_preserves_error
    (d : NamespacedDisposableRequest) (err : Option String) :
    (d.SetError err).status.failed = int32wrap (d.status.failed + 1) ∧
    (-2147483648 ≤ d.status.failed → d.status.failed < 2147483647 →
      (d.SetError err).status.failed = d.status.failed + 1) ∧
    (d.SetError none).status.error = d.status.error := by
  have hw : (d.SetError err).status.failed = int32wrap (d.status.failed + 1) := by
    cases err <;> rfl
  refine ⟨hw, ?_, rfl⟩
  intro h1 h2
  rw [hw]
  unfold int32wrap
  omega

theorem C10_witness :
    -2147483648 ≤ (mkDisposable 5 "old").status.failed ∧
    (mkDisposable 5 "old").status.failed < 2147483647 ∧
    ((mkDisposable 5 "old").SetError none).status.failed =
      (mkDisposable 5 "old").status.failed + 1 ∧
    ((mkDisposable 5 "old").SetError none).status.error =
      (mkDisposable 5 "old").status.error :=
  ⟨by decide, by decide,
    (C10_setError_wrapped_increment_and_nil_preserves_error
      (mkDisposable 5 "old") none).2.1 (by decide) (by decide),
    (C10_setError_wrapped_increment_and_nil_preserves_error
      (mkDisposable 5 "old") none).2.2⟩

/-- C6: objectNotCreated (the negation of isObjectValidForObservation, as
computed by the observe flow) is true exactly when no response has ever
been recorded in Status (a zero recorded status code), or when the last
recorded request was a create attempt (a POST) that ended in an HTTP
error status. -/
theorem C6_objectNotCreated_characterization (cr : Request) :
    (!(isObjectValidForObservation cr)) =
      ((cr.status.response.statusCode == 0) ||
        ((cr.status.requestDetails.method == "POST") &&
          IsHTTPError cr.status.response.statusCode)) := by
  unfold isObjectValidForObservation
  cases h1 : (cr.status.response.statusCode == 0) <;>
    cases h2 : (cr.status.requestDetails.method == "POST") <;>
      cases h3 : IsHTTPError cr.status.response.statusCode <;>
        simp [bne, h1, h2, h3]

/-- C5: for every Create, Update or Delete call on a spec that has no
Mapping for the invoked action, the call returns success (a nil error),
the resource is left unchanged, and no HTTP request is made (the side
effect trace is empty). The statement is per-action: only the mapping for
the invoked action matters, so a spec may opt out of a single action
(say, deletion) while keeping the others. -/
theorem C5_absent_mapping_is_noop (cr : NamespacedRequest) (col : Collaborators)
    (updateOk : Bool) (action : String)
    (hmap : GetMapping (bridgeToRequest cr).forProvider action = none) :
    deployActionRun cr action col updateOk = (none, cr, []) ∧
    (action = ActionCreate → CreateRun cr col updateOk = (none, cr, [])) ∧
    (action = ActionUpdate → UpdateRun cr col updateOk = (none, cr, [])) ∧
    (action = ActionRemove → DeleteRun cr col updateOk = (none, cr, [])) := by
  have hda : deployActionRun cr action col updateOk = (none, cr, []) := by
    simp only [deployActionRun, hmap]
  refine ⟨hda, ?_, ?_, ?_⟩ <;> intro h <;> subst h <;>
    simp only [CreateRun, UpdateRun, DeleteRun, hda, wrapOptionErr]

theorem C5_witness :
    deployActionRun (mkSampleCR "DEFAULT" "DEFAULT" emptyStatus) ActionRemove happyCollaborators true =
      (none, mkSampleCR "DEFAULT" "DEFAULT" emptyStatus, []) ∧
    (ActionRemove = ActionCreate →
      CreateRun (mkSampleCR "DEFAULT" "DEFAULT" emptyStatus) happyCollaborators true =
        (none, mkSampleCR "DEFAULT" "DEFAULT" emptyStatus, [])) ∧
    (ActionRemove = ActionUpdate →
      UpdateRun (mkSampleCR "DEFAULT" "DEFAULT" emptyStatus) happyCollaborators true =
        (none, mkSampleCR "DEFAULT" "DEFAULT" emptyStatus, [])) ∧
    (ActionRemove = ActionRemove →
      DeleteRun (mkSampleCR "DEFAULT" "DEFAULT" emptyStatus) happyCollaborators true =
        (none, mkSampleCR "DEFAULT" "DEFAULT" emptyStatus, [])) :=
  C5_absent_mapping_is_noop (mkSampleCR "DEFAULT" "DEFAULT" emptyStatus) happyCollaborators
    true ActionRemove (by decide)

/-- C4 counterexample: a concrete Create call whose request rendering
fails returns the (wrapped) render error, but the resource is returned
unchanged: Failed is not incremented by 1, Error is not set, and no
failure evidence is persisted to Status before the error is returned. -/
theorem C4_counterexample :
    renderFailCollaborators.render = Except.error "unresolved secret reference" ∧
    (CreateRun (mkSampleCR "DEFAULT" "DEFAULT" emptyStatus) renderFailCollaborators true).1 =
      some (wrapErr errFailedToSendHttpRequest "unresolved secret reference") ∧
    (CreateRun (mkSampleCR "DEFAULT" "DEFAULT" emptyStatus) renderFailCollaborators true).2.1 =
      mkSampleCR "DEFAULT" "DEFAULT" emptyStatus ∧
    ¬((CreateRun (mkSampleCR "DEFAULT" "DEFAULT" emptyStatus) renderFailCollaborators true).2.1.status.failed =
        (mkSampleCR "DEFAULT" "DEFAULT" emptyStatus).status.failed + 1) := by
  decide

/-- C4 amended: on every Create, Update or Delete call whose request
rendering fails, the call returns the render error to the caller (wrapped
by the action entry point), but no failure evidence is recorded: deploy
returns before the status handler runs, so Failed is unchanged, Error is
unchanged, nothing is persisted, and no HTTP request is sent. -/
theorem C4_render_failure_returns_without_status_write
    (cr : NamespacedRequest) (action : String) (col : Collaborators) (updateOk : Bool)
    (m : RMapping) (msg : String)
    (hmap : GetMapping (bridgeToRequest cr).forProvider action = some m)
    (hrender : col.render = Except.error msg) :
    deployActionRun cr action col updateOk = (some msg, cr, []) := by
  simp only [deployActionRun, hmap, hrender]

theorem C4_witness :
    deployActionRun (mkSampleCR "DEFAULT" "DEFAULT" emptyStatus) ActionCreate renderFailCollaborators true =
      (some "unresolved secret reference", mkSampleCR "DEFAULT" "DEFAULT" emptyStatus, []) :=
  C4_render_failure_returns_without_status_write
    (mkSampleCR "DEFAULT" "DEFAULT" emptyStatus) ActionCreate renderFailCollaborators true
    createRMapping "unresolved secret reference" (by decide) (by decide)

/-- C2 counterexample: a concrete Observe call in which the removal
predicate signals that the resource has been removed propagates the
removal outcome as a hard error WITHOUT running the Secret Patcher: the
side effect trace contains the dispatched request but no secret patching
event. -/
theorem C2_counterexample :
    removedCollaborators.removedCheck = Except.error "resource was removed" ∧
    (isUpToDateRun (bridgeToRequest (mkSampleCR "DEFAULT" "DEFAULT" createdStatus)) removedCollaborators).1.2 =
      some "resource was removed" ∧
    Event.ranSecretPatcher ∉
      (isUpToDateRun (bridgeToRequest (mkSampleCR "DEFAULT" "DEFAULT" createdStatus)) removedCollaborators).2 := by
  decide

/-- C2 amended: on every Observe call in which the removal predicate
signals that the resource has been removed, the removal outcome is
propagated as a hard error immediately and the Secret Patcher is NOT run
over the response: the patcher runs only on calls where the removal check
passes (it is invoked after determineIfRemoved returns). -/
theorem C2_removed_propagates_without_secret_patcher
    (cr : Request) (col : Collaborators) (m : RMapping) (rd : RequestDetailsR) (e : String)
    (hmap : GetMapping cr.forProvider ActionObserve = some m)
    (hrender : col.render = Except.ok rd)
    (hskip : (!(IsHTTPSuccess col.sendDetails.httpResponse.statusCode) &&
        !(isObjectValidForObservation cr)) = false)
    (hkind : validCheckType cr.forProvider.isRemovedCheck.type = true)
    (hrem : col.removedCheck = Except.error e) :
    (isUpToDateRun cr col).1 = (FailedObserve, some e) ∧
    (isUpToDateRun cr col).2 = [Event.sentRequest] := by
  simp only [isUpToDateRun, hmap, hrender, hskip, determineIfRemoved, hkind, hrem,
    Bool.false_eq_true, if_false, if_true]
  simp

theorem C2_witness :
    (isUpToDateRun (bridgeToRequest (mkSampleCR "CUSTOM" "CUSTOM" createdStatus)) removedCollaborators).1 =
      (FailedObserve, some "resource was removed") ∧
    (isUpToDateRun (bridgeToRequest (mkSampleCR "CUSTOM" "CUSTOM" createdStatus)) removedCollaborators).2 =
      [Event.sentRequest] :=
  C2_removed_propagates_without_secret_patcher
    (bridgeToRequest (mkSampleCR "CUSTOM" "CUSTOM" createdStatus)) removedCollaborators
    observeRMapping sampleRenderDetails "resource was removed"
    (by decide) (by decide) (by decide) (by decide) (by decide)

/-- C3 counterexample: a concrete Observe call whose up-to-date check kind
is neither DEFAULT, CUSTOM nor empty raises the configuration error, but
only AFTER the HTTP request has been sent: the side effect trace contains
the dispatched request. -/
theorem C3_counterexample :
    validCheckType "INVALID" = false ∧
    (isUpToDateRun (bridgeToRequest (mkSampleCR "INVALID" "DEFAULT" createdStatus)) happyCollaborators).1.2 =
      some (errExpectedResponseCheckType "expectedResponseCheck") ∧
    Event.sentRequest ∈
      (isUpToDateRun (bridgeToRequest (mkSampleCR "INVALID" "DEFAULT" createdStatus)) happyCollaborators).2 := by
  decide

/-- C3 amended: for every reconcile call whose up-to-date or removal check
kind is neither DEFAULT, CUSTOM nor empty, a configuration error is
raised, but only after the observe HTTP request has been sent: the check
kinds are validated when the response checkers are built, which happens
after SendRequest. -/
theorem C3_config_error_raised_after_request
    (cr : Request) (col : Collaborators) (m : RMapping) (rd : RequestDetailsR)
    (hmap : GetMapping cr.forProvider ActionObserve = some m)
    (hrender : col.render = Except.ok rd)
    (hskip : (!(IsHTTPSuccess col.sendDetails.httpResponse.statusCode) &&
        !(isObjectValidForObservation cr)) = false) :
    (validCheckType cr.forProvider.isRemovedCheck.type = false →
      (isUpToDateRun cr col).1 =
        (FailedObserve, some (errExpectedResponseCheckType "isRemovedCheck")) ∧
      Event.sentRequest ∈ (isUpToDateRun cr col).2) ∧
    (validCheckType cr.forProvider.isRemovedCheck.type = true →
      col.removedCheck = Except.ok () →
      validCheckType cr.forProvider.expectedResponseCheck.type = false →
      (isUpToDateRun cr col).1 =
        (FailedObserve, some (errExpectedResponseCheckType "expectedResponseCheck")) ∧
      Event.sentRequest ∈ (isUpToDateRun cr col).2) := by
  constructor
  · intro hk
    simp only [isUpToDateRun, hmap, hrender, hskip, determineIfRemoved, hk,
      Bool.false_eq_true, if_false]
    simp
  · intro hk hok hup
    simp only [isUpToDateRun, hmap, hrender, hskip, determineIfRemoved, hk, hok,
      determineIfUpToDate, hup, Bool.false_eq_true, if_false, if_true]
    simp

theorem C3_witness :
    (validCheckType (bridgeToRequest (mkSampleCR "INVALID2" "DEFAULT" createdStatus)).forProvider.isRemovedCheck.type = false →
      (isUpToDateRun (bridgeToRequest (mkSampleCR "INVALID2" "DEFAULT" createdStatus)) happyCollaborators).1 =
        (FailedObserve, some (errExpectedResponseCheckType "isRemovedCheck")) ∧
      Event.sentRequest ∈ (isUpToDateRun (bridgeToRequest (mkSampleCR "INVALID2" "DEFAULT" createdStatus)) happyCollaborators).2) ∧
    (validCheckType (bridgeToRequest (mkSampleCR "INVALID2" "DEFAULT" createdStatus)).forProvider.isRemovedCheck.type = true →
      happyCollaborators.removedCheck = Except.ok () →
      validCheckType (bridgeToRequest (mkSampleCR "INVALID2" "DEFAULT" createdStatus)).forProvider.expectedResponseCheck.type = false →
      (isUpToDateRun (bridgeToRequest (mkSampleCR "INVALID2" "DEFAULT" createdStatus)) happyCollaborators).1 =
        (FailedObserve, some (errExpectedResponseCheckType "expectedResponseCheck")) ∧
      Event.sentRequest ∈ (isUpToDateRun (bridgeToRequest (mkSampleCR "INVALID2" "DEFAULT" createdStatus)) happyCollaborators).2) :=
  C3_config_error_raised_after_request
    (bridgeToRequest (mkSampleCR "INVALID2" "DEFAULT" createdStatus)) happyCollaborators
    observeRMapping sampleRenderDetails
    (by decide) (by decide) (by decide)

/-- C8: for every Observe call in which the executed probe returns a
response with a non-success status while objectNotCreated is true, the
call returns ResourceExists = false with no error (the resource is
reported absent, not an error and not an up-to-date verdict). -/
theorem C8_probe_failure_not_created_reports_absent
    (cr latest : NamespacedRequest) (col : Collaborators) (getOk updateOk : Bool)
    (m : RMapping) (rd : RequestDetailsR)
    (hmap : GetMapping (bridgeToRequest cr).forProvider ActionObserve = some m)
    (hrender : col.render = Except.ok rd)
    (hfail : IsHTTPSuccess col.sendDetails.httpResponse.statusCode = false)
    (hnc : isObjectValidForObservation (bridgeToRequest cr) = false) :
    ObserveRun cr col latest getOk updateOk =
      (({ resourceExists := false, resourceUpToDate := false }, none), cr, [Event.sentRequest]) := by
  have hiu : isUpToDateRun (bridgeToRequest cr) col =
      ((FailedObserve, some ErrObjectNotFound), [Event.sentRequest]) := by
    simp only [isUpToDateRun, hmap, hrender, hfail, hnc, Bool.not_false, Bool.and_self, if_true]
  simp only [ObserveRun, hiu]
  simp [ErrObjectNotFound]

theorem C8_witness :
    ObserveRun (mkSampleCR "DEFAULT" "DEFAULT" emptyStatus) notFoundCollaborators
        (mkSampleCR "DEFAULT" "DEFAULT" emptyStatus) true true =
      (({ resourceExists := false, resourceUpToDate := false }, none),
        mkSampleCR "DEFAULT" "DEFAULT" emptyStatus, [Event.sentRequest]) :=
  C8_probe_failure_not_created_reports_absent
    (mkSampleCR "DEFAULT" "DEFAULT" emptyStatus) (mkSampleCR "DEFAULT" "DEFAULT" emptyStatus)
    notFoundCollaborators true true observeRMapping sampleRenderDetails
    (by decide) (by decide) (by decide) (by decide)

/-- C7: for every Observe call in which rendering the observe Mapping
fails, if objectNotCreated is true the call reports the resource as
absent (ResourceExists = false, no error) so creation can proceed;
otherwise the render error is propagated as a fatal (wrapped) error. The
hypothesis that the render message differs from the not-found sentinel
reflects that the flow distinguishes the two by message equality. -/
theorem C7_render_failure_first_observation
    (cr latest : NamespacedRequest) (col : Collaborators) (getOk updateOk : Bool)
    (m : RMapping) (msg : String)
    (hmap : GetMapping (bridgeToRequest cr).forProvider ActionObserve = some m)
    (hrender : col.render = Except.error msg)
    (hne : msg ≠ ErrObjectNotFound) :
    (isObjectValidForObservation (bridgeToRequest cr) = false →
      ObserveRun cr col latest getOk updateOk =
        (({ resourceExists := false, resourceUpToDate := false }, none), cr, [])) ∧
    (isObjectValidForObservation (bridgeToRequest cr) = true →
      ObserveRun cr col latest getOk updateOk =
        (({ resourceExists := false, resourceUpToDate := false },
          some (wrapErr errFailedToCheckIfUpToDate msg)), cr, [])) := by
  constructor
  · intro hnc
    have hiu : isUpToDateRun (bridgeToRequest cr) col =
        ((FailedObserve, some ErrObjectNotFound), []) := by
      simp only [isUpToDateRun, hmap, hrender, hnc, Bool.not_false, if_true]
    simp only [ObserveRun, hiu]
    simp [ErrObjectNotFound]
  · intro hv
    have hiu : isUpToDateRun (bridgeToRequest cr) col =
        ((FailedObserve, some msg), []) := by
      simp only [isUpToDateRun, hmap, hrender, hv, Bool.not_true, Bool.false_eq_true, if_false]
    have hbe : (msg == ErrObjectNotFound) = false := by
      simp only [beq_eq_false_iff_ne, ne_eq]
      exact hne
    simp only [ObserveRun, hiu, hbe]
    simp

theorem C7_witness :
    (isObjectValidForObservation (bridgeToRequest (mkSampleCR "DEFAULT" "DEFAULT" emptyStatus)) = false →
      ObserveRun (mkSampleCR "DEFAULT" "DEFAULT" emptyStatus) renderFailCollaborators
          (mkSampleCR "DEFAULT" "DEFAULT" emptyStatus) true true =
        (({ resourceExists := false, resourceUpToDate := false }, none),
          mkSampleCR "DEFAULT" "DEFAULT" emptyStatus, [])) ∧
    (isObjectValidForObservation (bridgeToRequest (mkSampleCR "DEFAULT" "DEFAULT" emptyStatus)) = true →
      ObserveRun (mkSampleCR "DEFAULT" "DEFAULT" emptyStatus) renderFailCollaborators
          (mkSampleCR "DEFAULT" "DEFAULT" emptyStatus) true true =
        (({ resourceExists := false, resourceUpToDate := false },
          some (wrapErr errFailedToCheckIfUpToDate "unresolved secret reference")),
          mkSampleCR "DEFAULT" "DEFAULT" emptyStatus, [])) :=
  C7_render_failure_first_observation
    (mkSampleCR "DEFAULT" "DEFAULT" emptyStatus) (mkSampleCR "DEFAULT" "DEFAULT" emptyStatus)
    renderFailCollaborators true true observeRMapping "unresolved secret reference"
    (by decide) (by decide) (by decide)

/-- C1: for every Observe call that completes without error and reports
UpToDate = true, the persisted status carries Failed = 0 and an empty
Error message, regardless of their prior values. -/
theorem C1_observe_synced_resets_failures
    (cr latest : NamespacedRequest) (col : Collaborators) (getOk updateOk : Bool)
    (hdone : (ObserveRun cr col latest getOk updateOk).1.2 = none)
    (hsync : (ObserveRun cr col latest getOk updateOk).1.1.resourceUpToDate = true) :
    (ObserveRun cr col latest getOk updateOk).2.1.status.failed = 0 ∧
    (ObserveRun cr col latest getOk updateOk).2.1.status.error = "" := by
  rcases hres : isUpToDateRun (bridgeToRequest cr) col with ⟨⟨ord, oerr⟩, tr⟩
  simp only [ObserveRun, hres] at hdone hsync ⊢
  cases oerr with
  | some e =>
    by_cases he : (e == ErrObjectNotFound) = true
    · simp only [he, if_true] at hsync
      cases hsync
    · simp only [he, if_false, Bool.false_eq_true] at hdone
      cases hdone
  | none =>
    cases getOk with
    | false => simp at hdone
    | true =>
      cases updateOk with
      | false => simp at hdone
      | true =>
        simp only [if_true] at hsync ⊢
        simp only [hsync, if_true, bridgeFromRequest]
        exact setRequestStatus_synced _ _ _ _

theorem C1_witness :
    (ObserveRun (mkSampleCR "DEFAULT" "DEFAULT" createdStatus) happyCollaborators
        (mkSampleCR "DEFAULT" "DEFAULT" createdStatus) true true).2.1.status.failed = 0 ∧
    (ObserveRun (mkSampleCR "DEFAULT" "DEFAULT" createdStatus) happyCollaborators
        (mkSampleCR "DEFAULT" "DEFAULT" createdStatus) true true).2.1.status.error = "" :=
  C1_observe_synced_resets_failures
    (mkSampleCR "DEFAULT" "DEFAULT" createdStatus) (mkSampleCR "DEFAULT" "DEFAULT" createdStatus)
    happyCollaborators true true (by decide) (by decide)

end ProviderHttp
